import Mathlib

/-!
Shallow embedding of the Full Course Yellow alert-routing core
(src/fcy_cogs.py, src/fcy_guilds.py, src/fcy_constants.py,
src/full_course_yellow.py), together with theorems settling the
spec claims about it.

Python values that can live in the member-cache set are modelled by a
tagged type, because the source mixes `str(member.id)` insertions with
`payload.user.id` (an int) removals and Python equality never identifies
a string with an int.
-/

namespace FCY

/-- Values stored in the `alert_guild_members` Python set. The source
declares the set as `set[str]` and inserts `str(member.id)`, but the
raw-member-remove handler passes the integer `payload.user.id`; Python
set elements compare by type-aware equality, so both shapes are kept. -/
inductive PyVal where
  | str : String → PyVal
  | int : Int → PyVal
deriving DecidableEq, Repr

/-- Whether a set element is a Python string. -/
def PyVal.isStr : PyVal → Bool
  | .str _ => true
  | .int _ => false

/-- Model of Python `set.add` on a set represented as a duplicate-free list. -/
def setAdd (s : List PyVal) (v : PyVal) : List PyVal :=
  if v ∈ s then s else s ++ [v]

/-- Outcome of Python `set.remove`: either the updated set, or the
KeyError that `set.remove` raises when the element is absent. -/
inductive RemoveResult where
  | ok : List PyVal → RemoveResult
  | keyError : RemoveResult
deriving DecidableEq, Repr

/-- Model of Python `set.remove`: removes the element if present,
raises KeyError otherwise. -/
def setRemove (s : List PyVal) (v : PyVal) : RemoveResult :=
  if v ∈ s then .ok (s.filter (fun w => w != v)) else .keyError

/-- FCYFunctionality.on_member_join (src/fcy_cogs.py lines 36-40): when the
joined guild is an enabled AlertGuild, add `str(member.id)` to the set. -/
def on_member_join (enabledAlertGuildIds : List Nat) (members : List PyVal)
    (guildId : Nat) (memberId : Int) : List PyVal :=
  if guildId ∈ enabledAlertGuildIds then setAdd members (PyVal.str (toString memberId)) else members

/-- FCYFunctionality.on_raw_member_remove (src/fcy_cogs.py lines 42-49): when
the left guild is an enabled AlertGuild, call `set.remove` with the raw
integer `payload.user.id`. A KeyError from the remove propagates out of
the handler. -/
def on_raw_member_remove (enabledAlertGuildIds : List Nat) (members : List PyVal)
    (guildId : Nat) (userId : Int) : RemoveResult :=
  if guildId ∈ enabledAlertGuildIds then setRemove members (PyVal.int userId) else .ok members

/-- FCYFunctionality.populate_alert_guild_members (src/fcy_cogs.py lines
148-156): for each enabled AlertGuild roster, add `str(member.id)` for every
member. The rosters argument pairs each enabled AlertGuild id with the
member ids its `fetch_members` call yields. -/
def populate_alert_guild_members (rosters : List (Nat × List Int))
    (members : List PyVal) : List PyVal :=
  rosters.foldl
    (fun acc pair => pair.2.foldl (fun a m => setAdd a (PyVal.str (toString m))) acc)
    members

/-- The membership test `user_id in self.alert_guild_members` performed in
slash_alert (src/fcy_cogs.py line 535); `user_id` is the raw string option. -/
def membersContains (members : List PyVal) (user_id : String) : Bool :=
  members.contains (PyVal.str user_id)

/-- MonitoredGuild (src/fcy_guilds.py): a guild watched for bans. The
audit-log classifier only feeds the disabled automatic path and is not
needed by any claim, so it is omitted. The `testing` flag is the
InstalledGuild field set by the constructor keyword used throughout
src/fcy_constants.py and read by src/fcy_cogs.py. -/
structure MonitoredGuild where
  id : Nat
  name : String
  enabled : Bool
  testing : Bool
deriving DecidableEq, Repr

/-- AlertGuild (src/fcy_guilds.py lines 51-97): a guild that receives
alerts. `guild_notification_roles` is the per-origin role mapping,
modelled as an association list with the dict ordering of the source. -/
structure AlertGuild where
  id : Nat
  name : String
  enabled : Bool
  testing : Bool
  alert_channel_id : Nat
  general_notification_role_id : Option Nat
  guild_notification_roles : Option (List (Nat × Nat))
deriving DecidableEq, Repr

/-- Python dict lookup on the association-list model of
`guild_notification_roles`. -/
def rolesLookup (m : List (Nat × Nat)) (k : Nat) : Option Nat :=
  (m.find? (fun p => p.1 == k)).map (fun p => p.2)

/-- AlertGuild.decorate_mutual_guilds (src/fcy_guilds.py lines 86-97):
joins, with a comma separator, one entry per mutual guild - the role
mention when this AlertGuild maps that guild id to a role, otherwise the
plain guild name; when the role mapping is absent, always the name. -/
def AlertGuild.decorate_mutual_guilds (ag : AlertGuild)
    (mutual_guilds : List MonitoredGuild) : String :=
  match ag.guild_notification_roles with
  | none => String.intercalate ", " (mutual_guilds.map (fun g => g.name))
  | some roles =>
      String.intercalate ", " (mutual_guilds.map (fun g =>
        match rolesLookup roles g.id with
        | none => g.name
        | some roleId => "<@&" ++ toString roleId ++ ">"))

/-- LUX_DEV_AG (src/fcy_constants.py lines 33-43). -/
def LUX_DEV_AG : AlertGuild :=
  { id := 1079109375647555695
    name := "Lux's Dev/Testing Server"
    enabled := true
    testing := true
    alert_channel_id := 1105555454605672448
    general_notification_role_id := some 1136730925481340968
    guild_notification_roles := some
      [(1079109375647555695, 1136731212828901397),
       (177387572505346048, 1143326383955783783)] }

/-- SMS_AG (src/fcy_constants.py lines 44-63). -/
def SMS_AG : AlertGuild :=
  { id := 959541053915037697
    name := "Staff of MS Discords"
    enabled := true
    testing := false
    alert_channel_id := 960480902331383809
    general_notification_role_id := some 1144006270454599720
    guild_notification_roles := some
      [(177387572505346048, 959862354663850086),
       (142082511902605313, 959542104302944327),
       (877239953174691910, 959542131251380274),
       (271077595913781248, 959543894704537630),
       (1014269980960899173, 1041018881214525561),
       (897158147511316522, 1067767300935131216),
       (193548511126487040, 1118919138321104906),
       (878844647173132359, 1129338140390346873),
       (830080368089890887, 1133781212251553883),
       (360079258980319232, 1112467709045788692),
       (1135611684560572466, 1194260632174874754),
       (824991244706512897, 1283392453721980969)] }

/-- Per-guild outcome of `monitored_guild.guild.fetch_member(actor.id)` as
classified by the try/except in get_mutual_monitored_guilds: the member is
returned, discord.Forbidden is raised, or discord.HTTPException (the
not-found signal) is raised. -/
inductive ProbeOutcome where
  | present : ProbeOutcome
  | notPresent : ProbeOutcome
  | permissionDenied : ProbeOutcome
deriving DecidableEq, Repr

/-- FCYFunctionality.get_mutual_monitored_guilds (src/fcy_cogs.py lines
97-123): loop over the enabled MonitoredGuild registry in order, appending
a guild when the fetch succeeds, logging and skipping on Forbidden, and
silently skipping on HTTPException. The fetch behaviour is abstracted by
the per-guild outcome function. -/
def get_mutual_monitored_guilds (registry : List MonitoredGuild)
    (fetchOutcome : Nat → ProbeOutcome) : List MonitoredGuild :=
  registry.foldl
    (fun mutual_mgs monitored_guild =>
      match fetchOutcome monitored_guild.id with
      | .present => mutual_mgs ++ [monitored_guild]
      | .notPresent => mutual_mgs
      | .permissionDenied => mutual_mgs)
    []

/-- The filter in FCYFunctionality.send_alerts (src/fcy_cogs.py lines
464-467) selecting which enabled AlertGuilds receive this alert. -/
def guilds_to_alert (enabled_alert_guilds : List AlertGuild)
    (testing_guilds_only : Bool) : List AlertGuild :=
  enabled_alert_guilds.filter (fun ag => !(testing_guilds_only && !ag.testing))

/-- The delivery loop of FCYFunctionality.send_alerts (src/fcy_cogs.py lines
470-483): one `channel.send` per guild, in order, with no exception
handling, so the first failing send aborts the loop and its exception
propagates. Returns the guilds whose channel received a send call and
whether an exception escaped the loop. The per-channel failure pattern
abstracts the remote send. -/
def deliverySends (fails : Nat → Bool) : List AlertGuild → List AlertGuild × Bool
  | [] => ([], false)
  | g :: rest =>
    if fails g.alert_channel_id then ([g], true)
    else
      let r := deliverySends fails rest
      (g :: r.1, r.2)

/-- FCYFunctionality.send_alerts (src/fcy_cogs.py lines 434-483) restricted
to its destination selection and delivery loop; embed composition and
decoration do not affect which destinations are contacted. -/
def send_alerts (enabled_alert_guilds : List AlertGuild)
    (testing_guilds_only : Bool) (fails : Nat → Bool) : List AlertGuild × Bool :=
  deliverySends fails (guilds_to_alert enabled_alert_guilds testing_guilds_only)

/-- The check performed by validate_user_id_format (src/fcy_cogs.py line
197), modelled on the ASCII fragment of Python str.isdigit: nonempty and
every character an ASCII decimal digit. Python str.isdigit additionally
accepts non-ASCII digit characters; inside the pipeline trace below this
predicate serves only as the boolean outcome of the format guard, which
the pipeline ordering properties treat as opaque, and it is evaluated
only at all-ASCII concrete inputs, where it coincides with Python. -/
def pyIsdigit (s : String) : Bool :=
  !s.data.isEmpty && s.data.all Char.isDigit

/-- Observable steps of the slash_alert validation pipeline
(src/fcy_cogs.py lines 509-578), in the order the code performs them. -/
inductive GuardEvent where
  | envCheck : GuardEvent
  | envFail : GuardEvent
  | formatCheck : GuardEvent
  | formatFail : GuardEvent
  | resolveActor : GuardEvent
  | resolveFail : GuardEvent
  | modCheck : GuardEvent
  | modBlocked : GuardEvent
  | deferStep : GuardEvent
  | selfAlertPath : GuardEvent
  | sendAlertsPath : GuardEvent
deriving DecidableEq, Repr

/-- FCYFunctionality.slash_alert (src/fcy_cogs.py lines 509-578) as the
trace of pipeline steps it performs. Inputs abstract the collaborators:
whether determine_command_environment returned an AlertGuild, the raw
user_id option, the result of actor resolution (none models the
commands.UserNotFound path of get_and_validate_user_from_id), the member
cache, TESTING_USER_IDS, and the invoking author id (Actor equality on
Discord compares ids). Each failed guard raises CommandUserError, which
the caller catches and returns on, so nothing later runs. -/
def slash_alert (envOk : Bool) (user_id : String) (resolveRes : Option Int)
    (members : List PyVal) (testing_user_ids : List String)
    (invokerId : Int) : List GuardEvent :=
  if !envOk then [.envCheck, .envFail]
  else if !pyIsdigit user_id then [.envCheck, .formatCheck, .formatFail]
  else
    match resolveRes with
    | none => [.envCheck, .formatCheck, .resolveActor, .resolveFail]
    | some actorId =>
      if membersContains members user_id
          && !(testing_user_ids.contains user_id)
          && !(actorId == invokerId) then
        [.envCheck, .formatCheck, .resolveActor, .modCheck, .modBlocked]
      else if actorId == invokerId then
        [.envCheck, .formatCheck, .resolveActor, .modCheck, .deferStep, .selfAlertPath]
      else
        [.envCheck, .formatCheck, .resolveActor, .modCheck, .deferStep, .sendAlertsPath]

/-- Boolean check that in a trace every occurrence of the actor-resolution
step comes before any moderator-exclusion check. -/
def resolveBeforeMod (t : List GuardEvent) : Bool :=
  match t.indexOf? GuardEvent.modCheck, t.indexOf? GuardEvent.resolveActor with
  | some i, some j => j < i
  | some _, none => false
  | none, _ => true

/-- Whitespace characters accepted by Python int() around a numeric
literal (ASCII fragment: space, tab, newline, carriage return, vertical
tab, form feed). -/
def pyWs (c : Char) : Bool :=
  c == ' ' || c == '\t' || c == '\n' || c == '\r' || c == Char.ofNat 11 || c == Char.ofNat 12

/-- Strip leading and trailing Python int() whitespace. -/
def stripPy (cs : List Char) : List Char :=
  ((cs.dropWhile pyWs).reverse.dropWhile pyWs).reverse

/-- After a first digit, Python int() accepts digits with single
underscores strictly between digits. -/
def digitsTailOk : List Char → Bool
  | [] => true
  | [c] => if c == '_' then false else c.isDigit
  | c :: d :: rest =>
    if c == '_' then d.isDigit && digitsTailOk rest
    else c.isDigit && digitsTailOk (d :: rest)

/-- A valid unsigned digit group for Python int(): nonempty, starting
with a digit, underscores only between digits. -/
def digitsOk : List Char → Bool
  | [] => false
  | c :: rest => c.isDigit && digitsTailOk rest

/-- Numeric value of a digit group, ignoring underscores. -/
def digitsVal (cs : List Char) : Nat :=
  (cs.filter (fun c => c != '_')).foldl (fun acc c => 10 * acc + (c.toNat - '0'.toNat)) 0

/-- Python int(str) on a stripped character list: an optional sign
followed by a digit group; anything else raises ValueError (none). -/
def pyIntCore : List Char → Option Int
  | [] => none
  | c :: rest =>
    if c == '+' then (if digitsOk rest then some (Int.ofNat (digitsVal rest)) else none)
    else if c == '-' then (if digitsOk rest then some (-(Int.ofNat (digitsVal rest))) else none)
    else if digitsOk (c :: rest) then some (Int.ofNat (digitsVal (c :: rest))) else none

/-- The ASCII fragment of Python int(str): strip whitespace, then parse
an optionally-signed underscore-separated digit literal; none models the
ValueError Python raises. On strings of ASCII characters this coincides
with Python int(); Python additionally accepts non-ASCII decimal digits,
which this fragment does not cover, so the development applies pyInt
only to all-ASCII concrete literals and otherwise keeps the conversion
abstract. -/
def pyInt (s : String) : Option Int :=
  pyIntCore (stripPy s.data)

/-- Outcome of `self.fetch_user(user_id)` as the source distinguishes it
(src/full_course_yellow.py lines 104-119): a user, a None result, or a
discord HTTPException (raised for ids outside the valid snowflake range). -/
inductive FetchResult where
  | found : Int → FetchResult
  | missing : FetchResult
  | httpError : FetchResult
deriving DecidableEq, Repr

/-- The actor-abstract union Actor | int | str | None fed to
solidify_actor_abstract; a resolved Actor is identified by its id. -/
inductive ActorAbstract where
  | actor : Int → ActorAbstract
  | intId : Int → ActorAbstract
  | strId : String → ActorAbstract
  | absent : ActorAbstract
deriving DecidableEq, Repr

/-- Result of solidify_actor_abstract: a resolved actor id, the
commands.UserNotFound exception, or an uncaught ValueError escaping the
int() conversion. -/
inductive SolidifyResult where
  | ok : Int → SolidifyResult
  | userNotFound : SolidifyResult
  | valueError : SolidifyResult
deriving DecidableEq, Repr

/-- The fetch-and-check tail of solidify_actor_abstract
(src/full_course_yellow.py lines 105-119): HTTPException and a None
result are both converted to commands.UserNotFound. -/
def fetch_user_step (fetch : Int → FetchResult) (user_id : Int) : SolidifyResult :=
  match fetch user_id with
  | .found a => .ok a
  | .missing => .userNotFound
  | .httpError => .userNotFound

/-- FCYBot.solidify_actor_abstract (src/full_course_yellow.py lines
93-119): None raises UserNotFound; a resolved Actor is returned
unchanged; otherwise `int(actor_abstract)` runs (whose ValueError is not
caught) and the id is fetched. Like the remote fetch, the builtin int()
conversion is abstracted as a parameter: its full Unicode digit tables
are outside this model, and the error routing proved below holds for
every behaviour of the conversion; pyInt supplies its ASCII fragment for
evaluation at concrete ASCII inputs. -/
def solidify_actor_abstract (intParse : String → Option Int)
    (fetch : Int → FetchResult) : ActorAbstract → SolidifyResult
  | .absent => .userNotFound
  | .actor a => .ok a
  | .intId n => fetch_user_step fetch n
  | .strId s =>
    match intParse s with
    | none => .valueError
    | some n => fetch_user_step fetch n

/-- A guild role as seen by determine_alert_server: id and display name. -/
structure DiscordRole where
  id : Nat
  name : String
deriving DecidableEq, Repr

/-- Result of determine_alert_server restricted to role matching: either
the origin label was inferred directly, or a ServerSelectView is
dispatched with the given option labels (src/fcy_cogs.py lines 328-344). -/
inductive AlertServerOutcome where
  | direct : String → AlertServerOutcome
  | prompt : List String → AlertServerOutcome
deriving DecidableEq, Repr

/-- The list comprehension pattern of determine_alert_server: names of the
roles, in source order, whose id appears among the values of the
guild_notification_roles mapping. -/
def notification_role_names (roles : List DiscordRole)
    (guild_notification_roles : List (Nat × Nat)) : List String :=
  (roles.filter
    (fun r => (guild_notification_roles.map (fun p => p.2)).contains r.id)).map
    (fun r => r.name)

/-- The AlertGuild branch of FCYFunctionality.determine_alert_server
(src/fcy_cogs.py lines 321-344): exactly one matching member role gives a
direct answer; otherwise a ServerSelectView is dispatched whose options
are the matches when nonempty, else every guild role mapped by
guild_notification_roles. No sorting is applied anywhere. -/
def determine_alert_server (memberRoles guildRolesList : List DiscordRole)
    (guild_notification_roles : List (Nat × Nat)) : AlertServerOutcome :=
  match notification_role_names memberRoles guild_notification_roles with
  | [n] => .direct n
  | mnrs =>
    .prompt
      (if mnrs.isEmpty then notification_role_names guildRolesList guild_notification_roles
       else mnrs)

/-- Lexicographic order on character lists by code point. -/
def lexLeChars : List Char → List Char → Bool
  | [], _ => true
  | _ :: _, [] => false
  | a :: as, b :: bs => if a == b then lexLeChars as bs else decide (a.toNat < b.toNat)

/-- ASCII lower-casing of one character. -/
def charLower (c : Char) : Char :=
  if 'A' ≤ c ∧ c ≤ 'Z' then Char.ofNat (c.toNat + 32) else c

/-- Case-insensitive string order on the ASCII fragment, the order
fcy_constants.py uses (str.casefold) for name-derived listings. -/
def ciLe (a b : String) : Bool :=
  lexLeChars (a.data.map charLower) (b.data.map charLower)

/-- Whether a list of labels is in case-insensitive alphabetical order. -/
def ciSorted : List String → Bool
  | [] => true
  | [_] => true
  | a :: b :: rest => ciLe a b && ciSorted (b :: rest)

/-- Test fixture: an enabled, non-testing alert destination. -/
def agA : AlertGuild :=
  { id := 1, name := "Guild A", enabled := true, testing := false
    alert_channel_id := 100, general_notification_role_id := none
    guild_notification_roles := none }

/-- Test fixture: a second enabled, non-testing alert destination. -/
def agB : AlertGuild :=
  { id := 2, name := "Guild B", enabled := true, testing := false
    alert_channel_id := 200, general_notification_role_id := none
    guild_notification_roles := none }

/-- Test fixture: monitored community X of the probe scenario. -/
def mgX : MonitoredGuild := { id := 1, name := "X", enabled := true, testing := false }

/-- Test fixture: monitored community Y of the probe scenario. -/
def mgY : MonitoredGuild := { id := 2, name := "Y", enabled := true, testing := false }

/-- Test fixture: monitored community Z of the probe scenario. -/
def mgZ : MonitoredGuild := { id := 3, name := "Z", enabled := true, testing := false }

/-- Test fixture: the probe outcome pattern where X raises Forbidden, Y is
not present, and Z is present. -/
def probeXYZ : Nat → ProbeOutcome := fun i =>
  if i == 1 then ProbeOutcome.permissionDenied
  else if i == 2 then ProbeOutcome.notPresent
  else ProbeOutcome.present

/-- Test fixture: a guild role named in lower case sorting after the next. -/
def roleBeta : DiscordRole := { id := 1, name := "beta" }

/-- Test fixture: a guild role named in upper case sorting before the
previous one under a case-insensitive order. -/
def roleAlpha : DiscordRole := { id := 2, name := "Alpha" }

/-- Test fixture: a fetch behaviour where negative ids are outside the
valid snowflake range (discord raises HTTPException) and the rest exist. -/
def outOfRangeFetch : Int → FetchResult := fun n =>
  if n < 0 then FetchResult.httpError else FetchResult.found n

/-- A Python int value is never an element of a set all of whose elements
are strings, because Python equality never identifies an int with a str. -/
theorem int_not_mem_of_all_isStr (s : List PyVal) (uid : Int)
    (h : s.all PyVal.isStr = true) : PyVal.int uid ∉ s := by
  intro hmem
  have hv := List.all_eq_true.mp h _ hmem
  simp [PyVal.isStr] at hv

/-- Removing a Python int from an all-string set always raises KeyError. -/
theorem setRemove_int_keyError (s : List PyVal) (uid : Int)
    (h : s.all PyVal.isStr = true) :
    setRemove s (PyVal.int uid) = RemoveResult.keyError := by
  unfold setRemove
  rw [if_neg (int_not_mem_of_all_isStr s uid h)]

/-- Adding a string keeps every element of the member cache a string. -/
theorem setAdd_str_all (s : List PyVal) (t : String)
    (h : s.all PyVal.isStr = true) :
    (setAdd s (PyVal.str t)).all PyVal.isStr = true := by
  unfold setAdd
  split
  · exact h
  · simp only [List.all_append, h, Bool.true_and]
    simp [PyVal.isStr]

/-- Folding a roster of string insertions keeps every element a string. -/
theorem foldl_setAdd_str_all (ms : List Int) (s : List PyVal)
    (h : s.all PyVal.isStr = true) :
    (ms.foldl (fun a m => setAdd a (PyVal.str (toString m))) s).all PyVal.isStr = true := by
  induction ms generalizing s with
  | nil => exact h
  | cons m rest ih => exact ih _ (setAdd_str_all s (toString m) h)

/-- populate_alert_guild_members only ever inserts strings, so it keeps
every element of the member cache a string. -/
theorem populate_all_isStr (rosters : List (Nat × List Int)) (s : List PyVal)
    (h : s.all PyVal.isStr = true) :
    (populate_alert_guild_members rosters s).all PyVal.isStr = true := by
  induction rosters generalizing s with
  | nil => exact h
  | cons r rest ih =>
    simp only [populate_alert_guild_members, List.foldl_cons] at ih ⊢
    exact ih _ (foldl_setAdd_str_all r.2 s h)

/-- Claim C1 (counterexample): after the startup population with rosters
A = [1, 2] and B = [2, 3] for enabled AlertGuilds 10 and 20, contains(2)
is true and contains(4) is false; but a leave event for actor 2 in guild
10 raises KeyError instead of updating the index, and so does the leave
event for actor 2 in guild 20, so contains(2) never becomes false - the
index is not tracked per-community and the claimed final state is never
reached. -/
theorem membership_per_community_counterexample :
    membersContains (populate_alert_guild_members [(10, [1, 2]), (20, [2, 3])] []) "2" = true ∧
    membersContains (populate_alert_guild_members [(10, [1, 2]), (20, [2, 3])] []) "4" = false ∧
    on_raw_member_remove [10, 20]
        (populate_alert_guild_members [(10, [1, 2]), (20, [2, 3])] []) 10 2
      = RemoveResult.keyError ∧
    on_raw_member_remove [10, 20]
        (populate_alert_guild_members [(10, [1, 2]), (20, [2, 3])] []) 20 2
      = RemoveResult.keyError := by decide

/-- Claim C1 (amended): the membership index is one flat set of stringified
ids, not a per-community structure. Population with rosters A = [1, 2] and
B = [2, 3] makes contains(2) true and contains(4) false; but every leave
event whose guild is an enabled AlertGuild calls set.remove with the raw
integer id, which is never an element of a set of strings, so the removal
raises KeyError and the index is left unchanged - contains(2) therefore
stays true after each leave event. -/
theorem membership_remove_always_keyError (enabled : List Nat) (s : List PyVal)
    (gid : Nat) (uid : Int)
    (hs : s.all PyVal.isStr = true) (hg : gid ∈ enabled) :
    on_raw_member_remove enabled s gid uid = RemoveResult.keyError ∧
    membersContains (populate_alert_guild_members [(10, [1, 2]), (20, [2, 3])] []) "2" = true ∧
    membersContains (populate_alert_guild_members [(10, [1, 2]), (20, [2, 3])] []) "4" = false := by
  refine ⟨?_, by decide, by decide⟩
  unfold on_raw_member_remove
  rw [if_pos hg]
  exact setRemove_int_keyError s uid hs

/-- Witness for the amended claim C1 at the concrete two-roster scenario. -/
theorem membership_remove_always_keyError_witness :
    (populate_alert_guild_members [(10, [1, 2]), (20, [2, 3])] []).all PyVal.isStr = true ∧
    (10 : Nat) ∈ [10, 20] ∧
    (on_raw_member_remove [10, 20]
          (populate_alert_guild_members [(10, [1, 2]), (20, [2, 3])] []) 10 2
        = RemoveResult.keyError ∧
      membersContains (populate_alert_guild_members [(10, [1, 2]), (20, [2, 3])] []) "2" = true ∧
      membersContains (populate_alert_guild_members [(10, [1, 2]), (20, [2, 3])] []) "4" = false) :=
  ⟨by decide, by decide,
    membership_remove_always_keyError [10, 20]
      (populate_alert_guild_members [(10, [1, 2]), (20, [2, 3])] []) 10 2
      (by decide) (by decide)⟩

/-- Claim C2: a leave event for an actor that is not in the index must not
fail the caller, but the source calls set.remove, which raises KeyError
for an absent element; evaluated at enabled AlertGuild 10, an empty index
and a leave event for actor 4, the handler raises. -/
theorem on_raw_member_remove_absent_raises :
    on_raw_member_remove [10] [] 10 4 = RemoveResult.keyError := by decide

/-- The delivery loop attempts sends in order up to and including the
first destination whose send raises, and aborts there with the exception
escaping; when nothing raises it attempts every destination once. -/
theorem deliverySends_eq (fails : Nat → Bool) (gs : List AlertGuild) :
    deliverySends fails gs =
      match gs.dropWhile (fun g => !fails g.alert_channel_id) with
      | [] => (gs, false)
      | g :: _ => (gs.takeWhile (fun g => !fails g.alert_channel_id) ++ [g], true) := by
  induction gs with
  | nil => rfl
  | cons g rest ih =>
    by_cases h : fails g.alert_channel_id
    · simp [deliverySends, h, List.dropWhile_cons, List.takeWhile_cons]
    · rw [List.dropWhile_cons, List.takeWhile_cons]
      simp only [h, Bool.not_false, if_true, deliverySends, if_neg]
      rw [ih]
      cases hdw : rest.dropWhile (fun g => !fails g.alert_channel_id) <;> simp

/-- Every guild that received a send call is one of the loop's inputs. -/
theorem deliverySends_subset (fails : Nat → Bool) :
    ∀ gs : List AlertGuild, ∀ g ∈ (deliverySends fails gs).1, g ∈ gs := by
  intro gs
  induction gs with
  | nil => intro g hg; simp [deliverySends] at hg
  | cons a rest ih =>
    intro g hg
    by_cases ha : fails a.alert_channel_id
    · simp [deliverySends, ha] at hg
      simp [hg]
    · simp only [deliverySends, ha, if_neg, Bool.false_eq_true, not_false_iff,
        List.mem_cons] at hg
      rcases hg with hg | hg
      · simp [hg]
      · exact List.mem_cons_of_mem _ (ih g hg)

/-- Claim C3 (counterexample): with two enabled non-testing destinations
and a send failure at the first destination's channel, the second
destination receives no delivery attempt at all and the failure escapes
the loop as one exception, refuting the no-fail-fast property. -/
theorem send_alerts_fail_fast_counterexample :
    send_alerts [agA, agB] false (fun c => c == 100) = ([agA], true) ∧
    agB ∉ (send_alerts [agA, agB] false (fun c => c == 100)).1 := by decide

/-- Claim C3 (amended): dispatch is fail-fast. The delivery loop contacts
the included destinations in order up to and including the first failing
one, at which point the exception propagates and all later destinations
receive zero attempts; only when no send fails does every included
destination receive exactly one attempt. -/
theorem send_alerts_fail_fast (enabled : List AlertGuild) (tOnly : Bool)
    (fails : Nat → Bool) :
    send_alerts enabled tOnly fails =
      (match (guilds_to_alert enabled tOnly).dropWhile (fun g => !fails g.alert_channel_id) with
       | [] => (guilds_to_alert enabled tOnly, false)
       | g :: _ =>
         ((guilds_to_alert enabled tOnly).takeWhile (fun g => !fails g.alert_channel_id) ++ [g],
           true)) ∧
    ((∀ g ∈ guilds_to_alert enabled tOnly, fails g.alert_channel_id = false) →
      send_alerts enabled tOnly fails = (guilds_to_alert enabled tOnly, false)) := by
  constructor
  · exact deliverySends_eq fails (guilds_to_alert enabled tOnly)
  · intro h
    unfold send_alerts
    rw [deliverySends_eq]
    have hdw : (guilds_to_alert enabled tOnly).dropWhile (fun g => !fails g.alert_channel_id)
        = [] := by
      rw [List.dropWhile_eq_nil_iff]
      intro g hg
      simp [h g hg]
    rw [hdw]

/-- Claim C8: with testing_guilds_only set, every destination whose channel
receives a send call has the testing flag, and at the concrete registry of
the two configured AlertGuilds - of which only LUX_DEV_AG is a testing
guild - exactly one send occurs, to the alert channel of LUX_DEV_AG. -/
theorem send_alerts_testing_only (enabled : List AlertGuild) (fails : Nat → Bool) :
    (∀ g ∈ (send_alerts enabled true fails).1, g.testing = true) ∧
    send_alerts [LUX_DEV_AG, SMS_AG] true (fun _ => false) = ([LUX_DEV_AG], false) ∧
    (send_alerts [LUX_DEV_AG, SMS_AG] true (fun _ => false)).1.map
        (fun g => g.alert_channel_id)
      = [LUX_DEV_AG.alert_channel_id] := by
  refine ⟨?_, by decide, by decide⟩
  intro g hg
  have hmem := deliverySends_subset fails (guilds_to_alert enabled true) g hg
  unfold guilds_to_alert at hmem
  rw [List.mem_filter] at hmem
  rcases hmem with ⟨_, hflag⟩
  simpa using hflag

/-- Claim C4 (counterexample): decorating the empty mutual-community list
for the Staff of MS Discords destination renders the empty string, not a
"not found in any monitored community" marker. -/
theorem decorate_mutual_guilds_empty_counterexample :
    SMS_AG.decorate_mutual_guilds [] = "" := by decide

/-- Claim C4 (amended): for every destination AlertGuild, decorating an
envelope whose mutual-community list is empty renders the empty string;
no marker text exists in the decoration. -/
theorem decorate_mutual_guilds_empty (ag : AlertGuild) :
    ag.decorate_mutual_guilds [] = "" := by
  obtain ⟨i, n, e, t, c, gr, roles⟩ := ag
  cases roles <;> rfl

/-- Folding the probe loop from any accumulator appends exactly the guilds
whose fetch outcome is present, in input order. -/
theorem probe_foldl_filter (f : Nat → ProbeOutcome) :
    ∀ (l : List MonitoredGuild) (acc : List MonitoredGuild),
      l.foldl
          (fun mutual_mgs monitored_guild =>
            match f monitored_guild.id with
            | .present => mutual_mgs ++ [monitored_guild]
            | .notPresent => mutual_mgs
            | .permissionDenied => mutual_mgs)
          acc
        = acc ++ l.filter (fun g => f g.id == ProbeOutcome.present) := by
  intro l
  induction l with
  | nil => intro acc; simp
  | cons g rest ih =>
    intro acc
    rw [List.foldl_cons, List.filter_cons]
    cases h : f g.id <;> simp [h, ih]

/-- Claim C7: the mutual-presence probe keeps exactly the monitored guilds
whose fetch reports the member present - PermissionDenied and not-found
outcomes are dropped without aborting the loop - the result is a sublist
of the registry (so registry iteration order is preserved), it has no
duplicates when registry ids are unique, and the three-guild scenario
where X raises Forbidden, Y is absent and Z is present yields exactly
[Z]. -/
theorem get_mutual_monitored_guilds_spec (registry : List MonitoredGuild)
    (fetchOutcome : Nat → ProbeOutcome)
    (hnd : (registry.map (fun g => g.id)).Nodup) :
    get_mutual_monitored_guilds registry fetchOutcome
        = registry.filter (fun g => fetchOutcome g.id == ProbeOutcome.present) ∧
    (get_mutual_monitored_guilds registry fetchOutcome).Sublist registry ∧
    (get_mutual_monitored_guilds registry fetchOutcome).Nodup ∧
    get_mutual_monitored_guilds [mgX, mgY, mgZ] probeXYZ = [mgZ] := by
  have hfilter : get_mutual_monitored_guilds registry fetchOutcome
      = registry.filter (fun g => fetchOutcome g.id == ProbeOutcome.present) := by
    unfold get_mutual_monitored_guilds
    simpa using probe_foldl_filter fetchOutcome registry []
  have hsub : (get_mutual_monitored_guilds registry fetchOutcome).Sublist registry := by
    rw [hfilter]
    exact List.filter_sublist registry
  exact ⟨hfilter, hsub, hsub.nodup (List.Nodup.of_map _ hnd), by decide⟩

/-- Witness for claim C7 at the three-guild probe scenario. -/
theorem get_mutual_monitored_guilds_spec_witness :
    ([mgX, mgY, mgZ].map (fun g => g.id)).Nodup ∧
    get_mutual_monitored_guilds [mgX, mgY, mgZ] probeXYZ
      = [mgX, mgY, mgZ].filter (fun g => probeXYZ g.id == ProbeOutcome.present) :=
  ⟨by decide, (get_mutual_monitored_guilds_spec [mgX, mgY, mgZ] probeXYZ (by decide)).1⟩

/-- Claim C5 (counterexample): with a valid environment, the all-digit
identifier 42 that IS present in the membership index, and an actor
resolution that fails, the pipeline runs actor resolution and stops at
its failure without ever reaching the moderator-exclusion check - so the
claimed order (moderator-exclusion before actor resolution) does not
match the code, which would otherwise have blocked this request at the
moderator guard before resolving. -/
theorem slash_alert_claimed_order_counterexample :
    slash_alert true "42" none [PyVal.str "42"] [] 99
      = [.envCheck, .formatCheck, .resolveActor, .resolveFail] ∧
    GuardEvent.resolveActor ∈ slash_alert true "42" none [PyVal.str "42"] [] 99 ∧
    GuardEvent.modCheck ∉ slash_alert true "42" none [PyVal.str "42"] [] 99 ∧
    membersContains [PyVal.str "42"] "42" = true := by decide

/-- Claim C5 (amended): the guards run in the order environment validity,
identifier format, actor resolution, then moderator-exclusion (bypassed
for the designated test identifiers and for self-alerts), and each guard
short-circuits: a later step appears in the trace only when every earlier
guard passed, an environment failure ends the trace at once, a blocked
moderator check ends the trace with no deferral or dispatch, and actor
resolution always precedes the moderator check. -/
theorem slash_alert_guard_order (envOk : Bool) (user_id : String)
    (resolveRes : Option Int) (members : List PyVal) (tids : List String)
    (invokerId : Int) :
    (GuardEvent.formatCheck ∈ slash_alert envOk user_id resolveRes members tids invokerId
      ↔ envOk = true) ∧
    (GuardEvent.resolveActor ∈ slash_alert envOk user_id resolveRes members tids invokerId
      ↔ envOk = true ∧ pyIsdigit user_id = true) ∧
    (GuardEvent.modCheck ∈ slash_alert envOk user_id resolveRes members tids invokerId
      ↔ envOk = true ∧ pyIsdigit user_id = true ∧ resolveRes.isSome = true) ∧
    resolveBeforeMod (slash_alert envOk user_id resolveRes members tids invokerId) = true ∧
    (envOk = false →
      slash_alert envOk user_id resolveRes members tids invokerId
        = [.envCheck, .envFail]) ∧
    (resolveRes = none →
      GuardEvent.deferStep ∉ slash_alert envOk user_id resolveRes members tids invokerId ∧
      GuardEvent.selfAlertPath ∉ slash_alert envOk user_id resolveRes members tids invokerId ∧
      GuardEvent.sendAlertsPath ∉ slash_alert envOk user_id resolveRes members tids invokerId) ∧
    (GuardEvent.modBlocked ∈ slash_alert envOk user_id resolveRes members tids invokerId →
      slash_alert envOk user_id resolveRes members tids invokerId
        = [.envCheck, .formatCheck, .resolveActor, .modCheck, .modBlocked]) ∧
    (tids.contains user_id = true →
      GuardEvent.modBlocked ∉ slash_alert envOk user_id resolveRes members tids invokerId) := by
  have rbm1 : resolveBeforeMod [.envCheck, .envFail] = true := by decide
  have rbm2 : resolveBeforeMod [.envCheck, .formatCheck, .formatFail] = true := by decide
  have rbm3 : resolveBeforeMod [.envCheck, .formatCheck, .resolveActor, .resolveFail] = true := by
    decide
  have rbm4 : resolveBeforeMod
      [.envCheck, .formatCheck, .resolveActor, .modCheck, .modBlocked] = true := by decide
  have rbm5 : resolveBeforeMod
      [.envCheck, .formatCheck, .resolveActor, .modCheck, .deferStep, .selfAlertPath]
      = true := by decide
  have rbm6 : resolveBeforeMod
      [.envCheck, .formatCheck, .resolveActor, .modCheck, .deferStep, .sendAlertsPath]
      = true := by decide
  cases envOk with
  | false => simp [slash_alert, rbm1]
  | true =>
    by_cases hd : pyIsdigit user_id = true
    · rcases resolveRes with _ | a
      · simp [slash_alert, hd, rbm3]
      · by_cases hmem : membersContains members user_id = true
          <;> by_cases htid : user_id ∈ tids
          <;> by_cases hself : a = invokerId
          <;> simp [slash_alert, hd, hmem, htid, hself, rbm4, rbm5, rbm6]
    · have hd2 : pyIsdigit user_id = false := by simpa using hd
      simp [slash_alert, hd2, rbm2]

/-- Claim C6: when the resolved actor equals the invoking actor, the
moderator-exclusion guard never blocks the request - whatever the
membership index holds - and the pipeline defers and proceeds to the
self-alert path. -/
theorem slash_alert_self_alert_bypasses_mod (user_id : String)
    (members : List PyVal) (tids : List String) (invokerId : Int)
    (hd : pyIsdigit user_id = true) :
    slash_alert true user_id (some invokerId) members tids invokerId
      = [.envCheck, .formatCheck, .resolveActor, .modCheck, .deferStep, .selfAlertPath] ∧
    GuardEvent.modBlocked ∉ slash_alert true user_id (some invokerId) members tids invokerId := by
  have htrace : slash_alert true user_id (some invokerId) members tids invokerId
      = [.envCheck, .formatCheck, .resolveActor, .modCheck, .deferStep, .selfAlertPath] := by
    simp [slash_alert, hd]
  rw [htrace]
  exact ⟨rfl, by decide⟩

/-- Witness for claim C6: the invoker with id 42 raises an alert against
the identifier 42 while the string 42 is present in the membership index. -/
theorem slash_alert_self_alert_bypasses_mod_witness :
    pyIsdigit "42" = true ∧
    (slash_alert true "42" (some 42) [PyVal.str "42"] [] 42
        = [.envCheck, .formatCheck, .resolveActor, .modCheck, .deferStep, .selfAlertPath] ∧
      GuardEvent.modBlocked ∉ slash_alert true "42" (some 42) [PyVal.str "42"] [] 42) :=
  ⟨by decide, slash_alert_self_alert_bypasses_mod "42" [PyVal.str "42"] [] 42 (by decide)⟩

/-- Claim C9 (counterexample): a member with no matching notification role
in a guild whose mapped roles are named beta then Alpha, in that guild
order, gets a prompt whose labels are in guild order, which is not the
case-insensitive alphabetical order the claim requires. -/
theorem determine_alert_server_unsorted :
    determine_alert_server [] [roleBeta, roleAlpha] [(10, 1), (20, 2)]
      = AlertServerOutcome.prompt ["beta", "Alpha"] ∧
    ciSorted ["beta", "Alpha"] = false := by decide

/-- Claim C9 (amended): when the member's matching notification roles do
not number exactly one, the prompt's candidate labels are the matched role
names when nonempty, otherwise the names of every guild role referenced by
the per-origin role mapping; the labels keep the iteration order of the
member role list, respectively the guild role list - no sorting is
applied. -/
theorem determine_alert_server_prompt_options (memberRoles guildRolesList : List DiscordRole)
    (gnr : List (Nat × Nat))
    (hne : (notification_role_names memberRoles gnr).length ≠ 1) :
    determine_alert_server memberRoles guildRolesList gnr
      = AlertServerOutcome.prompt
          (if (notification_role_names memberRoles gnr).isEmpty
           then notification_role_names guildRolesList gnr
           else notification_role_names memberRoles gnr) ∧
    (notification_role_names guildRolesList gnr).Sublist
      (guildRolesList.map (fun r => r.name)) ∧
    (notification_role_names memberRoles gnr).Sublist
      (memberRoles.map (fun r => r.name)) := by
  refine ⟨?_, ?_, ?_⟩
  · unfold determine_alert_server
    rcases h : notification_role_names memberRoles gnr with _ | ⟨n, _ | ⟨m, rest⟩⟩
    · simp
    · exact absurd (by rw [h]; rfl) hne
    · simp
  · exact List.Sublist.map (fun r => r.name) (List.filter_sublist guildRolesList)
  · exact List.Sublist.map (fun r => r.name) (List.filter_sublist memberRoles)

/-- Witness for the amended claim C9 at the zero-match scenario. -/
theorem determine_alert_server_prompt_options_witness :
    (notification_role_names [] [(10, 1), (20, 2)]).length ≠ 1 ∧
    (determine_alert_server [] [roleBeta, roleAlpha] [(10, 1), (20, 2)]
        = AlertServerOutcome.prompt
            (if (notification_role_names [] [(10, 1), (20, 2)]).isEmpty
             then notification_role_names [roleBeta, roleAlpha] [(10, 1), (20, 2)]
             else notification_role_names [] [(10, 1), (20, 2)]) ∧
      (notification_role_names [roleBeta, roleAlpha] [(10, 1), (20, 2)]).Sublist
        ([roleBeta, roleAlpha].map (fun r => r.name)) ∧
      (notification_role_names [] [(10, 1), (20, 2)]).Sublist
        (([] : List DiscordRole).map (fun r => r.name))) :=
  ⟨by decide,
    determine_alert_server_prompt_options [] [roleBeta, roleAlpha] [(10, 1), (20, 2)]
      (by decide)⟩

/-- Claim C10 (counterexample): the string -42 contains a non-digit
character, yet Python int() accepts it (every character of -42 is ASCII,
where pyInt coincides with the builtin), so the resolver does not raise
ValueError there - with the id out of the valid snowflake range, the
fetch raises HTTPException and the resolver raises commands.UserNotFound
instead. -/
theorem solidify_nondigit_counterexample :
    "-42".data.any (fun c => !c.isDigit) = true ∧
    pyInt "-42" = some (-42) ∧
    solidify_actor_abstract pyInt outOfRangeFetch (ActorAbstract.strId "-42")
      = SolidifyResult.userNotFound := by decide

/-- Claim C10 (amended): for every behaviour of the builtin int()
conversion and every string it rejects with ValueError (such as 12a),
the resolver raises that ValueError from the conversion, not
commands.UserNotFound; a string the conversion accepts proceeds to the
fetch step, whose outcomes are returned or converted to UserNotFound and
never ValueError; None input raises UserNotFound; so the resolver only
ever raises ValueError or UserNotFound, and the invalid-identifier-format
user error is produced solely by the pipeline's separate
validate_user_id_format guard. The concrete conjuncts evaluate the ASCII
fragment pyInt at all-ASCII literals, where it coincides with Python. -/
theorem solidify_actor_abstract_errors (intParse : String → Option Int)
    (fetch : Int → FetchResult) (s t : String) (n : Int) :
    (intParse s = none →
      solidify_actor_abstract intParse fetch (ActorAbstract.strId s)
        = SolidifyResult.valueError) ∧
    (intParse t = some n →
      solidify_actor_abstract intParse fetch (ActorAbstract.strId t)
        = fetch_user_step fetch n) ∧
    solidify_actor_abstract intParse fetch ActorAbstract.absent
      = SolidifyResult.userNotFound ∧
    (∀ m : Int, fetch_user_step fetch m ≠ SolidifyResult.valueError) ∧
    pyInt "12a" = none ∧
    pyInt "-42" = some (-42) := by
  refine ⟨?_, ?_, rfl, ?_, by decide, by decide⟩
  · intro h
    simp [solidify_actor_abstract, h]
  · intro h
    simp [solidify_actor_abstract, h]
  · intro m
    unfold fetch_user_step
    cases fetch m <;> simp

end FCY
